import Mathlib

/-!
Verification development for the in-container init supervisor ("dockerinit").

Two supervisor variants are embedded:

* `Libvirt` — the state-machine supervisor of `src/execdriver/libvirt/init.go`
  (`sysInit`, `syncNewState`, the `DockerInit` RPC methods, the `wait`
  signal/reaping loop, and the `rpcServer` accept loop).
* `Sysinit` — the app/machine-container supervisor of `src/sysinit/sysinit.go`
  (the `DockerInitRpc` methods, `startServerAndWait`, and the mode dispatch
  in `SysInit`).
* `Libvirt4` — the four-state libvirt init variant of
  `src/plugin/lxc/template.go` (the snapshot after the document separator,
  package `libvirt`): its `WaitForStateChange`/`setState` machinery and the
  state sequence of its `sysInit`.

Go concurrency is modelled by explicit oracles: each `Resume` await is given
the arrival time (in seconds) of the peer's `Resume`, or `none` if it never
arrives; `Wait4` results and incoming signals are given as lists.  Machine
integers stay `Nat`/`Int` (no overflow is relevant here).  Fallible Go code
returns `Except String`.
-/

/-- Whether a `select` on a resume channel against `time.After(timeoutSec)`
receives the `Resume`: the peer's send must arrive strictly before the timeout
fires (`none` = it never arrives). -/
def resumeReceived (arrivalSec : Option Nat) (timeoutSec : Nat) : Bool :=
  match arrivalSec with
  | some t => t < timeoutSec
  | none => false

namespace Libvirt

/-- Supervisor states, from `init.go`:
`Initial`, `ConsoleReady`, `RunReady`, `Running`, `Exited`, `FailedToStart`,
`Dead`. -/
inductive State
  | Initial
  | ConsoleReady
  | RunReady
  | Running
  | Exited
  | FailedToStart
  | Dead
deriving DecidableEq, Repr

/-- `StateInfo` from `init.go`: the state plus a recorded error string and the
exit code (sentinel `-1` until the child has exited). -/
structure StateInfo where
  state : State
  error : String
  exitCode : Int
deriving DecidableEq, Repr

/-- The mutable fields of the `DockerInit` record in `init.go` that the claims
are about.  File descriptors are opaque `Nat` handles (`Option` is the Go
`nil`-able pointer); `process` holds the container-namespace pid of the
launched child once `cmd.Start()` has succeeded (publishing the handle and
closing `processLock`, which happen adjacently in the source). -/
structure DockerInit where
  info : StateInfo
  stdin : Option Nat
  stdout : Option Nat
  stderr : Option Nat
  ptyMaster : Option Nat
  process : Option Nat
deriving DecidableEq, Repr

/-- `dockerInitNew()`: Initial state, empty error, exit code `-1`, no fds,
no process, `processLock` open. -/
def dockerInitNew : DockerInit :=
  { info := { state := State.Initial, error := "", exitCode := -1 }
    stdin := none, stdout := none, stderr := none
    ptyMaster := none, process := none }

/-- Printed name of a state, standing in for Go's `%v` of the `State` value in
the timeout message of `syncNewState`. -/
def stateName : State → String
  | State.Initial => "Initial"
  | State.ConsoleReady => "ConsoleReady"
  | State.RunReady => "RunReady"
  | State.Running => "Running"
  | State.Exited => "Exited"
  | State.FailedToStart => "FailedToStart"
  | State.Dead => "Dead"

/-- The timeout of `syncNewState`: `time.After(10 * time.Second)`. -/
def resumeTimeoutSeconds : Nat := 10

/-- The error produced when the `Resume` await in `syncNewState` expires. -/
def timeoutMsg (s : State) : String :=
  "timeout waiting for docker Resume(): state=" ++ stateName s

/-- `syncNewState` from `init.go`: wait (bounded by 10s) for the peer to call
`Resume`; on receipt set the `State` field to the new state, on timeout return
the timeout error without transitioning. -/
def syncNewState (init : DockerInit) (target : State) (arrivalSec : Option Nat) :
    Except String DockerInit :=
  if resumeReceived arrivalSec resumeTimeoutSeconds then
    Except.ok { init with info := { init.info with state := target } }
  else
    Except.error (timeoutMsg init.info.state)

/-- RPC `GetVersion`: always reports ABI version 1. -/
def GetVersion : Except String Nat := Except.ok 1

/-- RPC `GetState`: a snapshot of the current `StateInfo`; never blocks. -/
def GetState (init : DockerInit) : Except String StateInfo := Except.ok init.info

/-- RPC `GetPtyMaster`: hand out the pty master fd, or fail when nil. -/
def GetPtyMaster (init : DockerInit) : Except String Nat :=
  match init.ptyMaster with
  | none => Except.error "ptyMaster is nil"
  | some fd => Except.ok fd

/-- RPC `GetStdin`: hand out the stdin fd, or fail when nil. -/
def GetStdin (init : DockerInit) : Except String Nat :=
  match init.stdin with
  | none => Except.error "stdin is nil"
  | some fd => Except.ok fd

/-- RPC `GetStdout`: hand out the stdout fd, or fail when nil. -/
def GetStdout (init : DockerInit) : Except String Nat :=
  match init.stdout with
  | none => Except.error "stdout is nil"
  | some fd => Except.ok fd

/-- RPC `GetStderr`: hand out the stderr fd, or fail when nil. -/
def GetStderr (init : DockerInit) : Except String Nat :=
  match init.stderr with
  | none => Except.error "stderr is nil"
  | some fd => Except.ok fd

/-- RPC `GetPid` from `init.go`: fails when `init.process` is nil; otherwise
stores the constant pid `1` into the `RpcPid` reply ("RpcPid converts pid 1 to
host namespace pid" — the container's pid 1 is dockerinit itself, not the
launched child).  The value returned here is the container-namespace pid put
into the carrier before translation. -/
def GetPid (init : DockerInit) : Except String Nat :=
  match init.process with
  | none => Except.error "process doesn't exist"
  | some _ => Except.ok 1

/-- The RPC surface `rpc.Register(init)` exposes in `init.go`: the exported
methods of `DockerInit`.  `StdinClose` is not among them in this variant (it
exists only on `sysinit.go`'s `DockerInitRpc`); the four-state variant in
`template.go` additionally serves `WaitForStateChange`, `SetStdin`,
`SetStdout` and `SetStderr`. -/
def dockerInitMethods : List String :=
  ["GetVersion", "GetState", "Resume", "GetPtyMaster", "GetStdin",
   "GetStdout", "GetStderr", "GetPid", "Signal"]

/-- Opaque handles for the fds opened by the console-setup block of `sysInit`:
the pty master from `pty.Open()`, the stdout/stderr pipe read ends from
`cmd.StdoutPipe()`/`cmd.StderrPipe()`, and the stdin pipe write end from
`os.Pipe()`. -/
def ptyMasterFd : Nat := 10

def stdoutPipeFd : Nat := 11

def stderrPipeFd : Nat := 12

def stdinPipeFd : Nat := 13

/-- Environment oracle for one run of `sysInit`:
`earlyErr` — failure of the console-setup block (`exec.LookPath`, `pty.Open`,
`StdoutPipe`, `StderrPipe` or `os.Pipe`); `startErr` — failure of `start()`
(hostname/network/cgroups/capabilities/credential setup or `cmd.Start()`);
`childPid` — the container-namespace pid `cmd.Start()` gives the child;
`childExit` — the exit status `wait` eventually reaps for the direct child;
`resumes k` — the arrival time, in seconds, of the peer `Resume` answering the
`k`-th `syncNewState` await of the run (`none` if it never arrives). -/
structure RunCond where
  tty : Bool
  openStdin : Bool
  earlyErr : Option String
  startErr : Option String
  childPid : Nat
  childExit : Int
  resumes : Nat → Option Nat

/-- The console-setup block at the top of `sysInit` (the `earlyErr` closure):
in tty mode open a pty pair, keep the master and wire the slave to the child's
stdio (the stdin/stdout/stderr fields stay nil); otherwise keep the parent
ends of stdout/stderr pipes and, when `OpenStdin`, of a stdin pipe.  The two
branches are merged into one record with the mode selection in each field.
On the failure path `sysInit` exits before any claim-relevant field is read,
so partially created fds are not recorded. -/
def consoleSetup (c : RunCond) (init : DockerInit) : Except String DockerInit :=
  match c.earlyErr with
  | some e => Except.error e
  | none =>
    Except.ok { init with
      ptyMaster := if c.tty then some ptyMasterFd else none
      stdout := if c.tty then none else some stdoutPipeFd
      stderr := if c.tty then none else some stderrPipeFd
      stdin := if c.tty then none
               else if c.openStdin then some stdinPipeFd else none }

/-- How a run of `sysInit` ends: `exitProc` is `os.Exit(code)`, `errReturn` is
an error return out of `sysInit` (a `syncNewState` timeout). -/
inductive Outcome
  | exitProc (code : Int)
  | errReturn (msg : String)
deriving DecidableEq, Repr

/-- What one run of `sysInit` did:
`trace` — the `DockerInit` snapshot just after each assignment of the `State`
field (each successful `syncNewState`), in order;
`suspensions` — the snapshot at each point the main thread blocks (each
`syncNewState` await, and the child-`wait` loop);
`resumesReceived` — how many awaits received a peer `Resume`;
`process` — the published child process handle, if any. -/
structure RunResult where
  trace : List DockerInit
  suspensions : List DockerInit
  resumesReceived : Nat
  process : Option Nat
  outcome : Outcome

/-- The state-machine supervisor `sysInit` of `init.go`, step for step:
console setup (on failure: `FailedToStart`, `Dead`, `os.Exit(-1)`); then
`ConsoleReady`; then `RunReady`; then the stdin reference is closed and
nilled, the socket dir unmounted and the signal handler armed; then `start()`
(on failure: `FailedToStart`, `Dead`, `os.Exit(-1)`); publishing the process
handle and closing `processLock`; then `Running`; the reaping loop until the
child exits; recording the exit code; then `Exited`; then `Dead`; finally
`os.Exit(exitCode)`.  A `syncNewState` timeout returns its error. -/
def sysInit (c : RunCond) : RunResult :=
  let i0 := dockerInitNew
  match consoleSetup c i0 with
  | Except.error e =>
    let j1 : DockerInit := { i0 with info := { i0.info with error := e } }
    match syncNewState j1 State.FailedToStart (c.resumes 0) with
    | Except.error m =>
      { trace := [], suspensions := [j1], resumesReceived := 0
        process := none, outcome := Outcome.errReturn m }
    | Except.ok j2 =>
      match syncNewState j2 State.Dead (c.resumes 1) with
      | Except.error m =>
        { trace := [j2], suspensions := [j1, j2], resumesReceived := 1
          process := none, outcome := Outcome.errReturn m }
      | Except.ok j3 =>
        { trace := [j2, j3], suspensions := [j1, j2], resumesReceived := 2
          process := none, outcome := Outcome.exitProc (-1) }
  | Except.ok i1 =>
    match syncNewState i1 State.ConsoleReady (c.resumes 0) with
    | Except.error m =>
      { trace := [], suspensions := [i1], resumesReceived := 0
        process := none, outcome := Outcome.errReturn m }
    | Except.ok i2 =>
      match syncNewState i2 State.RunReady (c.resumes 1) with
      | Except.error m =>
        { trace := [i2], suspensions := [i1, i2], resumesReceived := 1
          process := none, outcome := Outcome.errReturn m }
      | Except.ok i3 =>
        let i4 : DockerInit := { i3 with stdin := none }
        match c.startErr with
        | some e =>
          let k5 : DockerInit := { i4 with info := { i4.info with error := e } }
          match syncNewState k5 State.FailedToStart (c.resumes 2) with
          | Except.error m =>
            { trace := [i2, i3], suspensions := [i1, i2, k5], resumesReceived := 2
              process := none, outcome := Outcome.errReturn m }
          | Except.ok k6 =>
            match syncNewState k6 State.Dead (c.resumes 3) with
            | Except.error m =>
              { trace := [i2, i3, k6], suspensions := [i1, i2, k5, k6]
                resumesReceived := 3, process := none, outcome := Outcome.errReturn m }
            | Except.ok k7 =>
              { trace := [i2, i3, k6, k7], suspensions := [i1, i2, k5, k6]
                resumesReceived := 4, process := none, outcome := Outcome.exitProc (-1) }
        | none =>
          let i5 : DockerInit := { i4 with process := some c.childPid }
          match syncNewState i5 State.Running (c.resumes 2) with
          | Except.error m =>
            { trace := [i2, i3], suspensions := [i1, i2, i5], resumesReceived := 2
              process := some c.childPid, outcome := Outcome.errReturn m }
          | Except.ok i6 =>
            let i7 : DockerInit := { i6 with info := { i6.info with exitCode := c.childExit } }
            match syncNewState i7 State.Exited (c.resumes 3) with
            | Except.error m =>
              { trace := [i2, i3, i6], suspensions := [i1, i2, i5, i6, i7]
                resumesReceived := 3, process := some c.childPid
                outcome := Outcome.errReturn m }
            | Except.ok i8 =>
              match syncNewState i8 State.Dead (c.resumes 4) with
              | Except.error m =>
                { trace := [i2, i3, i6, i8], suspensions := [i1, i2, i5, i6, i7, i8]
                  resumesReceived := 4, process := some c.childPid
                  outcome := Outcome.errReturn m }
              | Except.ok i9 =>
                { trace := [i2, i3, i6, i8, i9], suspensions := [i1, i2, i5, i6, i7, i8]
                  resumesReceived := 5, process := some c.childPid
                  outcome := Outcome.exitProc c.childExit }

/-- The sequence of values taken by the `State` field over a run: the `Initial`
it is created with, then each assigned state in order. -/
def stateTrace (c : RunCond) : List State :=
  State.Initial :: (sysInit c).trace.map (fun i => i.info.state)

/-- The full success progression of the machine-mode state machine. -/
def legalRunSeq : List State :=
  [State.Initial, State.ConsoleReady, State.RunReady, State.Running,
   State.Exited, State.Dead]

/-- The progression after a console-setup (pre-console) failure. -/
def legalEarlyFailSeq : List State :=
  [State.Initial, State.FailedToStart, State.Dead]

/-- The progression after a post-console launch failure. -/
def legalLateFailSeq : List State :=
  [State.Initial, State.ConsoleReady, State.RunReady, State.FailedToStart,
   State.Dead]

/-- The stdout fd the console-setup block leaves in the record (`nil` in tty
mode, the stdout pipe otherwise). -/
def consoleStdout (c : RunCond) : Option Nat :=
  if c.tty then none else some stdoutPipeFd

/-- The stderr fd the console-setup block leaves in the record. -/
def consoleStderr (c : RunCond) : Option Nat :=
  if c.tty then none else some stderrPipeFd

/-- How a peer's `Signal(sig)` RPC resolves against a completed run.  The
handler body is `<-init.processLock` then `init.process.Signal(signal)`:
`processLock` is closed exactly when the process handle is published, so the
call delivers only after publication; when the run ends without publishing
(`os.Exit` or an error return out of `sysInit`), the supervisor process dies,
the control socket closes with it, and the peer's pending call fails instead
of blocking forever. -/
inductive SignalResult
  | delivered (pid : Nat) (sig : Nat)
  | connClosed
deriving DecidableEq, Repr

/-- Resolution of a pending `Signal` RPC over the completed run `r`. -/
def Signal (r : RunResult) (sig : Nat) : SignalResult :=
  match r.process with
  | some pid => SignalResult.delivered pid sig
  | none => SignalResult.connClosed

/-- One result of `syscall.Wait4(-1, &wstatus, WNOHANG, &rusage)` inside the
drain loop of `wait`: `ok pid status` is a nil-error return (pid `0` means
children exist but none is reapable right now), `eintr` is the `EINTR` error,
`err` is any other error (e.g. `ECHILD`). -/
inductive Wait4Result
  | ok (pid : Nat) (status : Int)
  | eintr
  | err
deriving DecidableEq, Repr

/-- How the drain loop of `wait` ends: `exited status` — the direct child's
pid matched and its exit status is returned; `broke` — a non-`EINTR` error
broke the loop; `stillLooping` — the supplied `Wait4` results were exhausted
without the loop terminating (it is still iterating). -/
inductive DrainOutcome
  | exited (status : Int)
  | broke
  | stillLooping
deriving DecidableEq, Repr

/-- The inner SIGCHLD drain loop of `wait` in `init.go`, fed the successive
kernel results for `Wait4`:
return the status on a nil-error result whose pid matches the direct child;
break on a non-`EINTR` error; in every other case (including `EINTR`, a reaped
orphan of any other pid, and a pid-`0` "nothing reapable now" report) iterate
again. -/
def drain (childPid : Nat) : List Wait4Result → DrainOutcome
  | [] => DrainOutcome.stillLooping
  | Wait4Result.ok pid status :: rest =>
    if pid = childPid then DrainOutcome.exited status else drain childPid rest
  | Wait4Result.eintr :: rest => drain childPid rest
  | Wait4Result.err :: _ => DrainOutcome.broke

/-- How the drain loop would end under claim C7's description, which adds a
termination case: "terminates exactly when no more children are reapable". -/
inductive DrainClaimOutcome
  | exited (status : Int)
  | noMoreReapable
  | errStop
  | stillLooping
deriving DecidableEq, Repr

/-- The drain loop as claim C7 words it (a second definition, following the
claim rather than the source, for comparison with `drain`): it would stop as
soon as `WNOHANG` reports pid `0` ("no more children are reapable"), retry on
`EINTR`, reap orphans of any other pid, and recognize the direct child by pid
match. -/
def drainPerClaim (childPid : Nat) : List Wait4Result → DrainClaimOutcome
  | [] => DrainClaimOutcome.stillLooping
  | Wait4Result.ok pid status :: rest =>
    if pid = childPid then DrainClaimOutcome.exited status
    else if pid = 0 then DrainClaimOutcome.noMoreReapable
    else drainPerClaim childPid rest
  | Wait4Result.eintr :: rest => drainPerClaim childPid rest
  | Wait4Result.err :: _ => DrainClaimOutcome.errStop

/-- One delivery on `sigchan` inside `wait`: a `SIGCHLD` together with the
`Wait4` results its drain loop will see, or any other signal (by number). -/
inductive SigEvent
  | chld (results : List Wait4Result)
  | other (sig : Nat)

/-- Where the `wait` loop of `init.go` stands after the supplied signal
deliveries: it returned the direct child's status, is blocked receiving the
next signal, or is still inside a drain loop. -/
inductive WaitOutcome
  | exited (status : Int)
  | awaitingSignal
  | drainNotTerminated
deriving DecidableEq, Repr

/-- The outer signal loop of `wait`: on `SIGCHLD` run the drain loop (a
return from it ends `wait`; a break goes back to the signal receive); forward
every other signal to the direct child's process handle.  Returns the list of
forwarded signals (in delivery order) and where the loop stands. -/
def waitLoop (childPid : Nat) : List SigEvent → List Nat × WaitOutcome
  | [] => ([], WaitOutcome.awaitingSignal)
  | SigEvent.chld results :: rest =>
    match drain childPid results with
    | DrainOutcome.exited s => ([], WaitOutcome.exited s)
    | DrainOutcome.broke => waitLoop childPid rest
    | DrainOutcome.stillLooping => ([], WaitOutcome.drainNotTerminated)
  | SigEvent.other sig :: rest =>
    let r := waitLoop childPid rest
    (sig :: r.fst, r.snd)

/-- `init.cancel` is created by `make(chan int)` — an unbuffered channel — so
the send `init.cancel <- 1` completes only by rendezvous with a goroutine
already blocked receiving on it (a `Resume` handler parked in its `select`). -/
def cancelSendCompletes (receiversWaiting : Nat) : Bool :=
  decide (0 < receiversWaiting)

/-- Where the serial `rpcServer` accept loop of `init.go` stands after a peer
disconnect: the loop body runs `rpcfd.ServeConn`, `conn.Close()`, then
`init.cancel <- 1`, and only after that send completes does it loop back to
`listener.AcceptUnix()`. -/
inductive ServerPhase
  | accepting
  | blockedOnCancelSend
deriving DecidableEq, Repr

/-- The phase reached after a disconnect, given how many goroutines are
blocked receiving on `cancel` at (or ever after) that moment. -/
def phaseAfterDisconnect (receiversWaiting : Nat) : ServerPhase :=
  if cancelSendCompletes receiversWaiting then ServerPhase.accepting
  else ServerPhase.blockedOnCancelSend

/-- How many connections the serial accept loop gets to serve, given an
unbounded supply of incoming connections and, for each successive disconnect,
the number of goroutines blocked receiving on `cancel` at that disconnect. -/
def connectionsServed : List Nat → Nat
  | [] => 1
  | w :: rest =>
    if cancelSendCompletes w then 1 + connectionsServed rest else 1

end Libvirt

namespace Sysinit

/-- The timeout of the `Resume`/`Wait` awaits in `sysinit.go`
(`startServerAndWait` and the exit-code/final-resume selects in
`dockerInitApp`): `time.After(time.Second)`. -/
def resumeTimeoutSeconds : Nat := 1

/-- `startServerAndWait` of `sysinit.go`: start `rpcServer`, then wait
(bounded by 1s) for the peer's first `Resume`; on timeout return the timeout
error; on receipt unmount the socket directory and return nil. -/
def startServerAndWait (resumeArrivalSec : Option Nat) : Except String Unit :=
  if resumeReceived resumeArrivalSec resumeTimeoutSeconds then Except.ok ()
  else Except.error "timeout waiting for docker Resume()"

/-- The console-fd fields of the `DockerInitRpc` record in `sysinit.go`. -/
structure DockerInitRpc where
  stdin : Option Nat
  stdout : Option Nat
  stderr : Option Nat
  ptyMaster : Option Nat
deriving DecidableEq, Repr

/-- RPC `Stdin`: hand out the stdin fd, or fail when nil. -/
def Stdin (r : DockerInitRpc) : Except String Nat :=
  match r.stdin with
  | none => Except.error "stdin is nil"
  | some fd => Except.ok fd

/-- RPC `Stdout`: hand out the stdout fd, or fail when nil. -/
def Stdout (r : DockerInitRpc) : Except String Nat :=
  match r.stdout with
  | none => Except.error "stdout is nil"
  | some fd => Except.ok fd

/-- RPC `Stderr`: hand out the stderr fd, or fail when nil. -/
def Stderr (r : DockerInitRpc) : Except String Nat :=
  match r.stderr with
  | none => Except.error "stderr is nil"
  | some fd => Except.ok fd

/-- RPC `PtyMaster`: hand out the pty master fd, or fail when nil. -/
def PtyMaster (r : DockerInitRpc) : Except String Nat :=
  match r.ptyMaster with
  | none => Except.error "ptyMaster is nil"
  | some fd => Except.ok fd

/-- RPC `StdinClose` of `sysinit.go`: fail with "stdin is nil" when stdin is
already nil; otherwise close the fd and drop the reference (set it nil). -/
def StdinClose (r : DockerInitRpc) : Except String DockerInitRpc :=
  match r.stdin with
  | none => Except.error "stdin is nil"
  | some _ => Except.ok { r with stdin := none }

/-- The calls a peer can make on the `DockerInitRpc` surface of `sysinit.go`.
`resume`, `waitCall` and `signal` exist on the surface but do not touch the
console-fd fields. -/
inductive RpcCall
  | ptyMaster
  | stdout
  | stderr
  | stdin
  | stdinClose
  | resume
  | waitCall
  | signal (sig : Nat)
deriving DecidableEq, Repr

/-- The `DockerInitRpc` record after serving one call: only `StdinClose`
mutates a console-fd field (nilling `stdin` when it was non-nil; a failed
`StdinClose` leaves the record unchanged). -/
def serveCall (r : DockerInitRpc) (call : RpcCall) : DockerInitRpc :=
  match call with
  | RpcCall.stdinClose =>
    match StdinClose r with
    | Except.ok r2 => r2
    | Except.error _ => r
  | _ => r

/-- The record after serving a sequence of calls. -/
def serveCalls (r : DockerInitRpc) : List RpcCall → DockerInitRpc
  | [] => r
  | call :: rest => serveCalls (serveCall r call) rest

/-- The three operating modes `SysInit` dispatches between. -/
inductive Mode
  | machineParent
  | machineChild
  | app
deriving DecidableEq, Repr

/-- Go's `path.Base`: strip trailing slashes, keep the last path element;
`""` gives `"."` and an all-slash path gives `"/"`. -/
def pathBase (p : String) : String :=
  if p = "" then "."
  else
    let stripped := (p.toList.reverse.dropWhile (fun ch => ch == '/')).reverse
    if stripped = [] then "/"
    else String.mk (stripped.reverse.takeWhile (fun ch => ch != '/')).reverse

/-- The mode dispatch at the bottom of `SysInit` in `sysinit.go`:
`args.child` is tested first; only otherwise is argv[0] tested for a
`systemd` basename or the exact path `/sbin/init`; otherwise app mode. -/
def selectMode (child : Bool) (argv0 : String) : Mode :=
  if child then Mode.machineChild
  else if pathBase argv0 = "systemd" ∨ argv0 = "/sbin/init" then Mode.machineParent
  else Mode.app

/-- The dispatch as §4.6 of the spec (and claim C4) word it — a second
definition following the claim rather than the source, for comparison with
`selectMode`: the systemd/init test would be made first. -/
def selectModePerSpec (child : Bool) (argv0 : String) : Mode :=
  if pathBase argv0 = "systemd" ∨ argv0 = "/sbin/init" then Mode.machineParent
  else if child then Mode.machineChild
  else Mode.app

end Sysinit

namespace Libvirt4

/-- Supervisor states of the four-state libvirt init variant (the snapshot in
`src/plugin/lxc/template.go` after the document separator, package
`libvirt`): `Initial`, `Running`, `Exited`, `FailedToStart` — no console
states and no `Dead` state. -/
inductive State
  | Initial
  | Running
  | Exited
  | FailedToStart
deriving DecidableEq, Repr

/-- `DockerInitState` of that variant: state, error string, exit code. -/
structure DockerInitState where
  state : State
  error : String
  exitCode : Int
deriving DecidableEq, Repr

/-- The Go zero value the embedded `DockerInitState` of `dockerInitNew`
starts with: `Initial`, empty error, exit code `0`. -/
def initialZero : DockerInitState :=
  { state := State.Initial, error := "", exitCode := 0 }

/-- `setState` from `template.go`: set the state, the error string (empty
when no error) and the exit code together under the lock, then do a
non-blocking send on the 1-buffered `stateChange` channel. -/
def setState (s : State) (err : Option String) (exitCode : Int) :
    DockerInitState :=
  { state := s
    error := match err with | some e => e | none => ""
    exitCode := exitCode }

/-- One wake-up of a parked `WaitForStateChange` waiter: a receive on
`stateChange` or on `cancel` (fired by `rpcServer` at peer disconnect),
tagged with the supervisor's `DockerInitState` at the re-check that
follows. -/
inductive Wake
  | stateChange (si : DockerInitState)
  | cancel (si : DockerInitState)
deriving DecidableEq, Repr

/-- The snapshot a waiter sees at the re-check after a wake. -/
def wakeInfo : Wake → DockerInitState
  | Wake.stateChange si => si
  | Wake.cancel si => si

/-- `WaitForStateChange(current)` from `template.go`: under the lock, loop
`for init.State == current`, releasing the lock and parking in a select on
`stateChange`/`cancel` each iteration; only when the re-checked state differs
from `current` does the loop stop and the call return the `DockerInitState`
snapshot.  A receive on `cancel` is handled exactly like a `stateChange`
wake: it re-runs the guard and, with the state unchanged, parks again — the
method never produces a "canceled" result.  `entry` is the snapshot at call
time; `none` means the call is still blocked when the supplied wakes run
out. -/
def WaitForStateChange (current : State) (entry : DockerInitState) :
    List Wake → Option DockerInitState
  | [] => if entry.state = current then none else some entry
  | w :: rest =>
    if entry.state = current then WaitForStateChange current (wakeInfo w) rest
    else some entry

/-- The method as claim C3 words it (a second definition, following the claim
rather than the source, for comparison with `WaitForStateChange`): it would
block until the state differs from `current` *or the peer cancels*, a cancel
ending the call. -/
def WaitForStateChangePerClaim (current : State) (entry : DockerInitState) :
    List Wake → Option (Except String DockerInitState)
  | [] => if entry.state = current then none else some (Except.ok entry)
  | w :: rest =>
    if entry.state = current then
      match w with
      | Wake.cancel _ => some (Except.error "canceled")
      | Wake.stateChange si => WaitForStateChangePerClaim current si rest
    else some (Except.ok entry)

/-- The timeout of `waitForResume`: `time.After(1 * time.Second)`. -/
def waitForResumeTimeoutSeconds : Nat := 1

/-- Oracle for one run of this variant's `sysInit`: failure of `start(args)`,
the exit code `monitor` reaps for the child, and the arrival times of the two
`waitForResume` awaits. -/
structure RunCond where
  startErr : Option String
  childExit : Int
  resume0 : Option Nat
  resume1 : Option Nat

/-- The sequence of `DockerInitState` values over a run of this variant's
`sysInit`: the zero value; then — once the first `Resume` arrives within 1
second — after `start(args)` either `setState(FailedToStart, err, -1)` on
error, or `setState(Running, nil, -1)` followed, when `monitor` returns, by
`setState(Exited, nil, exitCode)`.  A `waitForResume` timeout ends the run
with an error return and no further transition. -/
def infoTrace (c : RunCond) : List DockerInitState :=
  if resumeReceived c.resume0 waitForResumeTimeoutSeconds then
    match c.startErr with
    | some e => [initialZero, setState State.FailedToStart (some e) (-1)]
    | none =>
      [initialZero, setState State.Running none (-1),
       setState State.Exited none c.childExit]
  else [initialZero]

/-- The wakes a waiter parked at trace position `i` receives: the later
snapshots of the run, carried by `stateChange` notifications. -/
def wakesFrom (c : RunCond) (i : Nat) : List Wake :=
  ((infoTrace c).drop (i + 1)).map Wake.stateChange

end Libvirt4

/-- A fully successful run: pipes console with open stdin, no failures, child
pid 2 exiting 0, every `Resume` arriving immediately. -/
def happyRun : Libvirt.RunCond :=
  { tty := false, openStdin := true, earlyErr := none, startErr := none
    childPid := 2, childExit := 0, resumes := fun _ => some 0 }

/-- C1: for every run of the state-machine supervisor `sysInit`, the sequence
of values taken by the `State` field is a prefix of one of the legal
progressions (`Initial, ConsoleReady, RunReady, Running, Exited, Dead`;
`Initial, FailedToStart, Dead`; or, after a post-console launch failure,
`Initial, ConsoleReady, RunReady, FailedToStart, Dead`); no state value is
assigned twice; and every transition performed by `syncNewState` consumed
exactly one peer `Resume` (transitions performed = resumes received). -/
theorem c1_state_sequence (c : Libvirt.RunCond) :
    (Libvirt.stateTrace c <+: Libvirt.legalRunSeq ∨
     Libvirt.stateTrace c <+: Libvirt.legalEarlyFailSeq ∨
     Libvirt.stateTrace c <+: Libvirt.legalLateFailSeq) ∧
    (Libvirt.stateTrace c).Nodup ∧
    (Libvirt.sysInit c).resumesReceived + 1 = (Libvirt.stateTrace c).length := by
  rcases hE : c.earlyErr with _ | e <;>
  rcases hS : c.startErr with _ | s <;>
  cases h0 : resumeReceived (c.resumes 0) Libvirt.resumeTimeoutSeconds <;>
  cases h1 : resumeReceived (c.resumes 1) Libvirt.resumeTimeoutSeconds <;>
  cases h2 : resumeReceived (c.resumes 2) Libvirt.resumeTimeoutSeconds <;>
  cases h3 : resumeReceived (c.resumes 3) Libvirt.resumeTimeoutSeconds <;>
  cases h4 : resumeReceived (c.resumes 4) Libvirt.resumeTimeoutSeconds <;>
  simp [Libvirt.stateTrace, Libvirt.sysInit, Libvirt.consoleSetup,
        Libvirt.syncNewState, Libvirt.dockerInitNew, hE, hS, h0, h1, h2, h3,
        h4] <;>
  decide

/-- C2: every peer-`Resume` await in the supervisors is bounded — 1 second in
`startServerAndWait` (app-container supervisor) and 10 seconds per state
acknowledgement in `syncNewState` (state-machine supervisor) — and an expired
await produces a timeout error (for `sysInit`, the run ends with that error
return) instead of blocking forever. -/
theorem c2_resume_timeouts :
    Sysinit.resumeTimeoutSeconds = 1 ∧
    Libvirt.resumeTimeoutSeconds = 10 ∧
    (∀ a : Option Nat, resumeReceived a Sysinit.resumeTimeoutSeconds = false →
      Sysinit.startServerAndWait a =
        Except.error "timeout waiting for docker Resume()") ∧
    (∀ (init : Libvirt.DockerInit) (t : Libvirt.State) (a : Option Nat),
      resumeReceived a Libvirt.resumeTimeoutSeconds = false →
      Libvirt.syncNewState init t a =
        Except.error (Libvirt.timeoutMsg init.info.state)) ∧
    (∀ c : Libvirt.RunCond,
      (Libvirt.sysInit { c with resumes := fun _ => none }).outcome =
        Libvirt.Outcome.errReturn (Libvirt.timeoutMsg Libvirt.State.Initial)) := by
  refine ⟨rfl, rfl, ?_, ?_, ?_⟩
  · intro a h; simp [Sysinit.startServerAndWait, h]
  · intro init t a h; simp [Libvirt.syncNewState, h]
  · intro c
    rcases hE : c.earlyErr with _ | e <;>
    simp [Libvirt.sysInit, Libvirt.consoleSetup, Libvirt.syncNewState,
          Libvirt.dockerInitNew, Libvirt.timeoutMsg, resumeReceived, hE]

/-- Witness for C2 at concrete inputs: a `Resume` that never arrives expires
both awaits with the timeout error. -/
theorem c2_resume_timeouts_witness :
    resumeReceived none Sysinit.resumeTimeoutSeconds = false ∧
    Sysinit.startServerAndWait none =
      Except.error "timeout waiting for docker Resume()" ∧
    Libvirt.syncNewState Libvirt.dockerInitNew Libvirt.State.ConsoleReady none =
      Except.error (Libvirt.timeoutMsg Libvirt.State.Initial) :=
  ⟨rfl, c2_resume_timeouts.2.2.1 none rfl,
   c2_resume_timeouts.2.2.2.1 Libvirt.dockerInitNew Libvirt.State.ConsoleReady
     none rfl⟩

/-- C4 counterexample: for an invocation where both the systemd/init condition
holds (argv[0] = "/sbin/init") and the `-child` flag is set, `SysInit` takes
the machine-container *child* branch — `args.child` is tested first in the
source — not the parent branch the claim requires. -/
theorem c4_counterexample :
    (Sysinit.pathBase "/sbin/init" = "systemd" ∨
      ("/sbin/init" : String) = "/sbin/init") ∧
    Sysinit.selectMode true "/sbin/init" = Sysinit.Mode.machineChild ∧
    Sysinit.selectModePerSpec true "/sbin/init" = Sysinit.Mode.machineParent ∧
    Sysinit.Mode.machineChild ≠ Sysinit.Mode.machineParent := by
  refine ⟨Or.inr rfl, rfl, ?_, by decide⟩
  simp [Sysinit.selectModePerSpec]

/-- C4 amended: mode selection tests the `-child` flag first: with `-child`
set the supervisor always enters machine-container child mode (even when
argv[0] is `systemd`/`/sbin/init`); only without `-child` does the
systemd/init condition select parent mode, and app mode is the fallback. -/
theorem c4_mode_priority (child : Bool) (argv0 : String) :
    Sysinit.selectMode true argv0 = Sysinit.Mode.machineChild ∧
    Sysinit.selectMode false argv0 =
      (if Sysinit.pathBase argv0 = "systemd" ∨ argv0 = "/sbin/init"
       then Sysinit.Mode.machineParent else Sysinit.Mode.app) ∧
    (Sysinit.selectMode child argv0 = Sysinit.Mode.machineChild ↔ child = true) := by
  refine ⟨rfl, ?_, ?_⟩
  · by_cases h : Sysinit.pathBase argv0 = "systemd" ∨ argv0 = "/sbin/init" <;>
    simp [Sysinit.selectMode, h]
  · cases child <;>
    by_cases h : Sysinit.pathBase argv0 = "systemd" ∨ argv0 = "/sbin/init" <;>
    simp [Sysinit.selectMode, h]

/-- Once the `stdin` reference of the `DockerInitRpc` record is nil it stays
nil under every further call of the RPC surface (no method re-sets it). -/
theorem serveCalls_stdin_none (calls : List Sysinit.RpcCall) :
    ∀ r : Sysinit.DockerInitRpc, r.stdin = none →
      (Sysinit.serveCalls r calls).stdin = none := by
  induction calls with
  | nil => intro r h; exact h
  | cons cl rest ih =>
    intro r h
    have hs : Sysinit.serveCall r cl = r := by
      cases cl <;> simp [Sysinit.serveCall, Sysinit.StdinClose, h]
    rw [Sysinit.serveCalls, hs]
    exact ih r h

/-- C6: a successful `StdinClose` drops the supervisor's stdin reference (sets
it nil), after which every subsequent stdin-getter call fails with
"stdin is nil" (and so does a second `StdinClose`); `StdinClose` itself fails
with the same error when stdin is already nil. -/
theorem c6_stdin_close (r : Sysinit.DockerInitRpc) (fd : Nat) :
    (r.stdin = some fd →
      Sysinit.StdinClose r = Except.ok { r with stdin := none } ∧
      ∀ calls : List Sysinit.RpcCall,
        (Sysinit.serveCalls { r with stdin := none } calls).stdin = none ∧
        Sysinit.Stdin (Sysinit.serveCalls { r with stdin := none } calls) =
          Except.error "stdin is nil" ∧
        Sysinit.StdinClose (Sysinit.serveCalls { r with stdin := none } calls) =
          Except.error "stdin is nil") ∧
    (r.stdin = none → Sysinit.StdinClose r = Except.error "stdin is nil") := by
  constructor
  · intro h
    refine ⟨by simp [Sysinit.StdinClose, h], fun calls => ?_⟩
    have hn : (Sysinit.serveCalls { r with stdin := none } calls).stdin = none :=
      serveCalls_stdin_none calls _ rfl
    exact ⟨hn, by simp [Sysinit.Stdin, hn], by simp [Sysinit.StdinClose, hn]⟩
  · intro h; simp [Sysinit.StdinClose, h]

/-- A `DockerInitRpc` record in pipe mode with an open stdin. -/
def rpcWithStdin : Sysinit.DockerInitRpc :=
  { stdin := some Libvirt.stdinPipeFd, stdout := some Libvirt.stdoutPipeFd
    stderr := some Libvirt.stderrPipeFd, ptyMaster := none }

/-- Witness for C6 at a concrete record: closing stdin succeeds, and after it
(and two more calls) `Stdin` and `StdinClose` fail with "stdin is nil". -/
theorem c6_stdin_close_witness :
    rpcWithStdin.stdin = some Libvirt.stdinPipeFd ∧
    Sysinit.StdinClose rpcWithStdin =
      Except.ok { rpcWithStdin with stdin := none } ∧
    (Sysinit.serveCalls { rpcWithStdin with stdin := none }
        [Sysinit.RpcCall.stdin, Sysinit.RpcCall.stdinClose]).stdin = none ∧
    Sysinit.Stdin (Sysinit.serveCalls { rpcWithStdin with stdin := none }
        [Sysinit.RpcCall.stdin, Sysinit.RpcCall.stdinClose]) =
      Except.error "stdin is nil" ∧
    Sysinit.StdinClose (Sysinit.serveCalls { rpcWithStdin with stdin := none }
        [Sysinit.RpcCall.stdin, Sysinit.RpcCall.stdinClose]) =
      Except.error "stdin is nil" :=
  ⟨rfl, ((c6_stdin_close rpcWithStdin Libvirt.stdinPipeFd).1 rfl).1,
   (((c6_stdin_close rpcWithStdin Libvirt.stdinPipeFd).1 rfl).2
     [Sysinit.RpcCall.stdin, Sysinit.RpcCall.stdinClose]).1,
   (((c6_stdin_close rpcWithStdin Libvirt.stdinPipeFd).1 rfl).2
     [Sysinit.RpcCall.stdin, Sysinit.RpcCall.stdinClose]).2.1,
   (((c6_stdin_close rpcWithStdin Libvirt.stdinPipeFd).1 rfl).2
     [Sysinit.RpcCall.stdin, Sysinit.RpcCall.stdinClose]).2.2⟩

/-- C5: a `Signal` RPC delivers only after the child process handle has been
published (the `processLock` latch released), and then to exactly the
published child; when the launch pipeline fails before publishing the handle
(console-setup or `start()` failure), the run leaves the handle unpublished
and the pending `Signal` call fails (the supervisor exits, closing the
control socket) rather than blocking forever. -/
theorem c5_signal_gating (c : Libvirt.RunCond) (sig : Nat) :
    (∀ p : Nat,
      Libvirt.Signal (Libvirt.sysInit c) sig =
        Libvirt.SignalResult.delivered p sig →
      (Libvirt.sysInit c).process = some p ∧ p = c.childPid) ∧
    (c.earlyErr.isSome = true ∨ c.startErr.isSome = true →
      (Libvirt.sysInit c).process = none ∧
      Libvirt.Signal (Libvirt.sysInit c) sig =
        Libvirt.SignalResult.connClosed) := by
  rcases hE : c.earlyErr with _ | e <;>
  rcases hS : c.startErr with _ | s <;>
  cases h0 : resumeReceived (c.resumes 0) Libvirt.resumeTimeoutSeconds <;>
  cases h1 : resumeReceived (c.resumes 1) Libvirt.resumeTimeoutSeconds <;>
  cases h2 : resumeReceived (c.resumes 2) Libvirt.resumeTimeoutSeconds <;>
  cases h3 : resumeReceived (c.resumes 3) Libvirt.resumeTimeoutSeconds <;>
  cases h4 : resumeReceived (c.resumes 4) Libvirt.resumeTimeoutSeconds <;>
  simp [Libvirt.Signal, Libvirt.sysInit, Libvirt.consoleSetup,
        Libvirt.syncNewState, Libvirt.dockerInitNew, hE, hS, h0, h1, h2, h3, h4]

/-- A run whose console setup fails (e.g. `exec.LookPath` cannot resolve
argv[0]), with a cooperative peer. -/
def earlyFailRun : Libvirt.RunCond :=
  { tty := false, openStdin := false, earlyErr := some "lookup failed"
    startErr := none, childPid := 2, childExit := 0, resumes := fun _ => some 0 }

/-- Witness for C5 at a concrete run: when the launch pipeline fails before
publishing the handle, the pending `Signal(15)` call fails. -/
theorem c5_signal_gating_witness :
    (Libvirt.sysInit earlyFailRun).process = none ∧
    Libvirt.Signal (Libvirt.sysInit earlyFailRun) 15 =
      Libvirt.SignalResult.connClosed :=
  (c5_signal_gating earlyFailRun 15).2 (Or.inl rfl)

/-- C7 counterexample: after `Wait4` reports "children exist but none is
reapable right now" (nil error, pid 0), the drain loop of `wait` does not
terminate — it issues another `Wait4` (here: exhausts the oracle while still
looping) — whereas the claim says the loop terminates exactly when no more
children are reapable (as `drainPerClaim` renders it). -/
theorem c7_counterexample :
    Libvirt.drain 5 [Libvirt.Wait4Result.ok 0 0] =
      Libvirt.DrainOutcome.stillLooping ∧
    Libvirt.drainPerClaim 5 [Libvirt.Wait4Result.ok 0 0] =
      Libvirt.DrainClaimOutcome.noMoreReapable ∧
    Libvirt.waitLoop 5 [Libvirt.SigEvent.chld [Libvirt.Wait4Result.ok 0 0]] =
      ([], Libvirt.WaitOutcome.drainNotTerminated) := by
  decide

/-- C7 amended: on `SIGCHLD` the `wait` loop of `init.go` runs a
`Wait4(-1, WNOHANG)` drain loop that retries on `EINTR`, reaps an orphan of
any other pid and keeps iterating — including after a pid-0 "nothing reapable
now" report, so it terminates only on the direct child's pid match (returning
its exit status) or on a non-`EINTR` error; every signal other than `SIGCHLD`
is forwarded to the direct child's process handle. -/
theorem c7_reaping (p pid sg : Nat) (st : Int) (rs : List Libvirt.Wait4Result)
    (o : List Libvirt.Wait4Result) (evs : List Libvirt.SigEvent) :
    Libvirt.drain p (Libvirt.Wait4Result.eintr :: rs) = Libvirt.drain p rs ∧
    Libvirt.drain p (Libvirt.Wait4Result.err :: rs) =
      Libvirt.DrainOutcome.broke ∧
    Libvirt.drain p (Libvirt.Wait4Result.ok p st :: rs) =
      Libvirt.DrainOutcome.exited st ∧
    (pid ≠ p → Libvirt.drain p (Libvirt.Wait4Result.ok pid st :: rs) =
      Libvirt.drain p rs) ∧
    Libvirt.waitLoop p (Libvirt.SigEvent.other sg :: evs) =
      (sg :: (Libvirt.waitLoop p evs).fst, (Libvirt.waitLoop p evs).snd) ∧
    (Libvirt.drain p o = Libvirt.DrainOutcome.exited st →
      Libvirt.waitLoop p (Libvirt.SigEvent.chld o :: evs) =
        ([], Libvirt.WaitOutcome.exited st)) := by
  refine ⟨rfl, rfl, by simp [Libvirt.drain], ?_, rfl, ?_⟩
  · intro h; simp [Libvirt.drain, h]
  · intro h; simp [Libvirt.waitLoop, h]

/-- Witness for C7 at concrete inputs: an orphan with pid 7 is reaped and the
loop continues; a `SIGCHLD` whose drain reaps the direct child (pid 5) ends
`wait` with the child's status; a forwarded `SIGTERM` reaches the child. -/
theorem c7_reaping_witness :
    Libvirt.drain 5 (Libvirt.Wait4Result.ok 7 0 :: [Libvirt.Wait4Result.ok 5 0]) =
      Libvirt.drain 5 [Libvirt.Wait4Result.ok 5 0] ∧
    Libvirt.waitLoop 5 [Libvirt.SigEvent.chld [Libvirt.Wait4Result.ok 5 0]] =
      ([], Libvirt.WaitOutcome.exited 0) :=
  ⟨(c7_reaping 5 7 0 0 [Libvirt.Wait4Result.ok 5 0] [] []).2.2.2.1 (by decide),
   (c7_reaping 5 7 0 0 [] [Libvirt.Wait4Result.ok 5 0] []).2.2.2.2.2 (by decide)⟩

/-- The final (`Dead`) snapshot of the fully successful run `happyRun`. -/
def deadSnapshot : Libvirt.DockerInit :=
  { info := { state := Libvirt.State.Dead, error := "", exitCode := 0 }
    stdin := none, stdout := some Libvirt.stdoutPipeFd
    stderr := some Libvirt.stderrPipeFd, ptyMaster := none, process := some 2 }

/-- C8 counterexample: in a successful run the published child handle is pid 2,
yet `GetPid` stores the constant pid 1 (the container's init — dockerinit
itself) into the PID carrier; since the carrier applies one injective
namespace translation, the reported pid does not identify the launched child
in the peer's namespace either. -/
theorem c8_counterexample :
    (Libvirt.sysInit happyRun).trace.getLast? = some deadSnapshot ∧
    deadSnapshot.process = some 2 ∧
    Libvirt.GetPid deadSnapshot = Except.ok 1 ∧
    (1 : Nat) ≠ 2 := by
  refine ⟨by rfl, rfl, rfl, by decide⟩

/-- C8 amended: `GetPid` fails when the child process handle has not been
set, and otherwise puts the constant pid 1 — the container's pid-1 init, i.e.
the supervisor itself — into the PID carrier for translation into the peer's
namespace; whenever the launched child's pid differs from 1, any injective
namespace translation keeps the reported pid distinct from the child's. -/
theorem c8_getpid (init : Libvirt.DockerInit) (p : Nat) (t : Nat → Nat) :
    (init.process = none →
      Libvirt.GetPid init = Except.error "process doesn't exist") ∧
    (init.process = some p → Libvirt.GetPid init = Except.ok 1) ∧
    (Function.Injective t → p ≠ 1 → t 1 ≠ t p) := by
  refine ⟨fun h => by simp [Libvirt.GetPid, h],
          fun h => by simp [Libvirt.GetPid, h],
          fun ht hp hc => hp (ht hc).symm⟩

/-- Witness for C8 at concrete inputs. -/
theorem c8_getpid_witness :
    Libvirt.GetPid Libvirt.dockerInitNew =
      Except.error "process doesn't exist" ∧
    Libvirt.GetPid deadSnapshot = Except.ok 1 ∧
    (id 1 : Nat) ≠ id 2 :=
  ⟨(c8_getpid Libvirt.dockerInitNew 2 id).1 rfl,
   (c8_getpid deadSnapshot 2 id).2.1 rfl,
   (c8_getpid deadSnapshot 2 id).2.2 (fun _ _ h => h) (by decide)⟩

/-- C9 counterexample: after a disconnect with no goroutine blocked receiving
on `cancel`, the unbuffered `init.cancel <- 1` blocks the serial accept loop
forever, so only the one already-served connection is ever accepted — no new
connection can be accepted — whereas with a waiter present the loop accepts
the next one. -/
theorem c9_counterexample :
    Libvirt.phaseAfterDisconnect 0 = Libvirt.ServerPhase.blockedOnCancelSend ∧
    Libvirt.ServerPhase.blockedOnCancelSend ≠ Libvirt.ServerPhase.accepting ∧
    Libvirt.connectionsServed [0] = 1 ∧
    Libvirt.connectionsServed [1] = 2 := by
  decide

/-- C9 amended: `rpcServer` serves one connection at a time; after a
disconnect it sends the cancellation on the unbuffered `cancel` channel and
returns to accepting only once some waiter receives it — with at least one
goroutine blocked on `cancel` the next connection is accepted, but with none
the server stays blocked on the send and accepts no further connection. -/
theorem c9_cancel_send (w : Nat) (ws : List Nat) :
    Libvirt.phaseAfterDisconnect (w + 1) = Libvirt.ServerPhase.accepting ∧
    Libvirt.phaseAfterDisconnect 0 = Libvirt.ServerPhase.blockedOnCancelSend ∧
    Libvirt.connectionsServed ((w + 1) :: ws) =
      1 + Libvirt.connectionsServed ws ∧
    Libvirt.connectionsServed (0 :: ws) = 1 := by
  refine ⟨?_, rfl, ?_, rfl⟩ <;>
  simp [Libvirt.phaseAfterDisconnect, Libvirt.connectionsServed,
        Libvirt.cancelSendCompletes]

/-- A return from the four-state variant's `WaitForStateChange` carries a
snapshot whose state differs from `current`, and that snapshot is the entry
snapshot or one carried by a wake. -/
theorem waitForStateChange_ok (current : Libvirt4.State) :
    ∀ (entry : Libvirt4.DockerInitState) (wakes : List Libvirt4.Wake)
      (si : Libvirt4.DockerInitState),
      Libvirt4.WaitForStateChange current entry wakes = some si →
      si.state ≠ current ∧ (si = entry ∨ si ∈ wakes.map Libvirt4.wakeInfo) := by
  intro entry wakes
  induction wakes generalizing entry with
  | nil =>
    intro si h
    by_cases hs : entry.state = current
    · simp [Libvirt4.WaitForStateChange, hs] at h
    · simp only [Libvirt4.WaitForStateChange, if_neg hs, Option.some.injEq] at h
      subst h
      exact ⟨hs, Or.inl rfl⟩
  | cons w rest ih =>
    intro si h
    by_cases hs : entry.state = current
    · simp only [Libvirt4.WaitForStateChange, if_pos hs] at h
      rcases ih (Libvirt4.wakeInfo w) si h with ⟨h1, h2⟩
      refine ⟨h1, Or.inr ?_⟩
      rw [List.map_cons]
      rcases h2 with h2 | h2
      · rw [h2]; exact List.mem_cons_self _ _
      · exact List.mem_cons_of_mem _ h2
    · simp only [Libvirt4.WaitForStateChange, if_neg hs, Option.some.injEq] at h
      subst h
      exact ⟨hs, Or.inl rfl⟩

/-- Along every run of the four-state variant, every snapshot after the
zero-value entry whose exit code is not the −1 sentinel is an `Exited`
snapshot (`setState` writes −1 for `FailedToStart` and `Running`). -/
theorem infoTrace_exitCode (c : Libvirt4.RunCond) :
    ∀ si ∈ (Libvirt4.infoTrace c).drop 1, si.exitCode ≠ -1 →
      si.state = Libvirt4.State.Exited := by
  rcases hS : c.startErr with _ | e <;>
  cases h0 : resumeReceived c.resume0 Libvirt4.waitForResumeTimeoutSeconds <;>
  simp [Libvirt4.infoTrace, Libvirt4.setState, Libvirt4.initialZero, hS, h0]

/-- C3 counterexample: a `WaitForStateChange(Initial)` call made in the
`Initial` state that receives the peer's cancellation while the state is
unchanged does not return — the real method (template.go) re-checks the loop
guard and parks again — whereas the claim's reading
(`WaitForStateChangePerClaim`) has the call end at the cancel. -/
theorem c3_counterexample :
    Libvirt4.WaitForStateChange Libvirt4.State.Initial Libvirt4.initialZero
        [Libvirt4.Wake.cancel Libvirt4.initialZero] = none ∧
    Libvirt4.WaitForStateChangePerClaim Libvirt4.State.Initial
        Libvirt4.initialZero [Libvirt4.Wake.cancel Libvirt4.initialZero] =
      some (Except.error "canceled") := by
  exact ⟨rfl, rfl⟩

/-- C3 amended: `WaitForStateChange(known)` blocks until the supervisor state
differs from `known`; a peer cancellation only wakes the guard re-check —
with the state unchanged the call parks again instead of returning.  For
every call made with the current state, the call never returns while the
state still equals `known`, and the returned snapshot carries a non-sentinel
exit code only when the state is `Exited`. -/
theorem c3_wait_for_state_change (c : Libvirt4.RunCond) (i : Nat)
    (entry si : Libvirt4.DockerInitState)
    (_hEntry : (Libvirt4.infoTrace c).get? i = some entry)
    (h : Libvirt4.WaitForStateChange entry.state entry
      (Libvirt4.wakesFrom c i) = some si)
    (cancelSi : Libvirt4.DockerInitState) (rest : List Libvirt4.Wake) :
    si.state ≠ entry.state ∧
    (si.exitCode ≠ -1 → si.state = Libvirt4.State.Exited) ∧
    (cancelSi.state = entry.state →
      Libvirt4.WaitForStateChange entry.state cancelSi
          (Libvirt4.Wake.cancel cancelSi :: rest) =
        Libvirt4.WaitForStateChange entry.state cancelSi rest) := by
  rcases waitForStateChange_ok entry.state entry (Libvirt4.wakesFrom c i) si h
    with ⟨hne, hmem⟩
  refine ⟨hne, ?_, ?_⟩
  · rcases hmem with hmem | hmem
    · exact absurd (congrArg Libvirt4.DockerInitState.state hmem) hne
    · simp only [Libvirt4.wakesFrom, List.mem_map] at hmem
      obtain ⟨w, ⟨s, hsmem, rfl⟩, hwi⟩ := hmem
      have hs_eq : s = si := hwi
      subst hs_eq
      have hdd := List.drop_drop i 1 (Libvirt4.infoTrace c)
      rw [Nat.add_comm 1 i] at hdd
      rw [← hdd] at hsmem
      exact infoTrace_exitCode c s (List.mem_of_mem_drop hsmem)
  · intro hcs
    simp [Libvirt4.WaitForStateChange, hcs, Libvirt4.wakeInfo]

/-- The happy run of the four-state variant: start succeeds, the child exits
with code 0, both resumes arrive at once. -/
def happyRun4 : Libvirt4.RunCond :=
  { startErr := none, childExit := 0, resume0 := some 0, resume1 := some 0 }

/-- The `Running` snapshot of `happyRun4`. -/
def runningInfo : Libvirt4.DockerInitState :=
  { state := Libvirt4.State.Running, error := "", exitCode := -1 }

/-- Witness for C3 at a concrete call: a waiter with `known = Initial` parked
at the start of `happyRun4` returns the `Running` snapshot (state differs,
exit code still the sentinel), and a cancel arriving in an unchanged state
only re-runs the guard. -/
theorem c3_wait_for_state_change_witness :
    runningInfo.state ≠ Libvirt4.initialZero.state ∧
    (runningInfo.exitCode ≠ -1 →
      runningInfo.state = Libvirt4.State.Exited) ∧
    (Libvirt4.initialZero.state = Libvirt4.initialZero.state →
      Libvirt4.WaitForStateChange Libvirt4.initialZero.state
          Libvirt4.initialZero
          (Libvirt4.Wake.cancel Libvirt4.initialZero :: []) =
        Libvirt4.WaitForStateChange Libvirt4.initialZero.state
          Libvirt4.initialZero []) :=
  c3_wait_for_state_change happyRun4 0 Libvirt4.initialZero runningInfo
    (by rfl) (by rfl) Libvirt4.initialZero []

set_option maxHeartbeats 2000000 in
/-- C10: in the state-machine supervisor no `StdinClose` method is registered,
and upon the `Resume` that enters `RunReady` the stdin reference is dropped
(closed and nilled) before the child is started: at every suspension point of
the run whose state is `RunReady` or later, the stdin field is nil and
`GetStdin` fails with "stdin is nil", while at the `RunReady`/`Running`/
`Exited` suspension points the stdout and stderr fields still hold exactly
what console setup produced (`GetStdout`/`GetStderr` unaffected). -/
theorem c10_stdin_dropped (c : Libvirt.RunCond) :
    ("StdinClose" ∉ Libvirt.dockerInitMethods) ∧
    ∀ s ∈ (Libvirt.sysInit c).suspensions,
      ((s.info.state = Libvirt.State.RunReady ∨
        s.info.state = Libvirt.State.Running ∨
        s.info.state = Libvirt.State.Exited ∨
        s.info.state = Libvirt.State.FailedToStart ∨
        s.info.state = Libvirt.State.Dead) →
        s.stdin = none ∧ Libvirt.GetStdin s = Except.error "stdin is nil") ∧
      ((s.info.state = Libvirt.State.RunReady ∨
        s.info.state = Libvirt.State.Running ∨
        s.info.state = Libvirt.State.Exited) →
        s.stdout = Libvirt.consoleStdout c ∧
        s.stderr = Libvirt.consoleStderr c) := by
  refine ⟨by decide, ?_⟩
  rcases hE : c.earlyErr with _ | e <;>
  rcases hS : c.startErr with _ | s <;>
  cases h0 : resumeReceived (c.resumes 0) Libvirt.resumeTimeoutSeconds <;>
  cases h1 : resumeReceived (c.resumes 1) Libvirt.resumeTimeoutSeconds <;>
  cases h2 : resumeReceived (c.resumes 2) Libvirt.resumeTimeoutSeconds <;>
  cases h3 : resumeReceived (c.resumes 3) Libvirt.resumeTimeoutSeconds <;>
  cases h4 : resumeReceived (c.resumes 4) Libvirt.resumeTimeoutSeconds <;>
  simp [Libvirt.sysInit, Libvirt.consoleSetup, Libvirt.syncNewState,
        Libvirt.dockerInitNew, Libvirt.GetStdin, Libvirt.consoleStdout,
        Libvirt.consoleStderr, hE, hS, h0, h1, h2, h3, h4]

/-- The suspension snapshot of `happyRun` at the await for `Running`: state
`RunReady`, stdin already dropped, process published. -/
def runReadySnapshot : Libvirt.DockerInit :=
  { info := { state := Libvirt.State.RunReady, error := "", exitCode := -1 }
    stdin := none, stdout := some Libvirt.stdoutPipeFd
    stderr := some Libvirt.stderrPipeFd, ptyMaster := none, process := some 2 }

/-- Witness for C10 at a concrete suspension point of `happyRun`. -/
theorem c10_stdin_dropped_witness :
    (runReadySnapshot.stdin = none ∧
     Libvirt.GetStdin runReadySnapshot = Except.error "stdin is nil") ∧
    (runReadySnapshot.stdout = Libvirt.consoleStdout happyRun ∧
     runReadySnapshot.stderr = Libvirt.consoleStderr happyRun) :=
  ⟨((c10_stdin_dropped happyRun).2 runReadySnapshot (by decide)).1
     (Or.inl rfl),
   ((c10_stdin_dropped happyRun).2 runReadySnapshot (by decide)).2
     (Or.inl rfl)⟩
